import Mathlib

/-!
Verification development for the netease-cloud-music-cli repository.

Bytes are modelled as natural numbers below 256, byte strings as `List Nat`.
The shallow embedding covers:
* `src/src/ncm/crypto.py` — the WEAPI (Scheme A) request encryption,
  including a full AES-128-CBC implementation mirroring the library
  primitive the source calls, PKCS#7 padding, base64, and the textbook
  RSA step;
* `src/src/ncm/client.py` — the transport result classification of
  `_request` and `_eapi_request`;
* `src/src/ncm/downloader.py` — the quality fallback resolution of
  `download_song`;
* `src/server.py` — the catalog record model, the claim step of
  `start_background_download`, the background worker, the startup local
  file sync, and the `/song/url` route.
-/

/-! ## Byte-level primitives -/

/-- ASCII bytes of a string. -/
def strBytes (s : String) : List Nat := s.toList.map Char.toNat

/-- String from ASCII bytes. -/
def asciiString (bs : List Nat) : String := String.mk (bs.map Char.ofNat)

/-- Pointwise xor of two byte lists. -/
def xorBytes (a b : List Nat) : List Nat := List.zipWith (fun x y => x ^^^ y) a b

/-- Big-endian integer value of a byte string, as `int(binascii.hexlify(bs), 16)`
computes it in `crypto.py` for bytes below 256. -/
def bytesToNatBE (bs : List Nat) : Nat := bs.foldl (fun acc b => acc * 256 + b) 0

/-- PKCS#7 padding to 16-byte blocks (`Crypto.Util.Padding.pad` with AES block size). -/
def pad16 (bs : List Nat) : List Nat :=
  let n := 16 - bs.length % 16
  bs ++ List.replicate n n

/-- Split a byte string into 16-byte blocks. -/
def chunks16 (bs : List Nat) : List (List Nat) :=
  if h : bs = [] then [] else bs.take 16 :: chunks16 (bs.drop 16)
termination_by bs.length
decreasing_by
  simp only [List.length_drop]
  have : 0 < bs.length := List.length_pos.mpr h
  omega

/-! ## AES-128 (the block cipher `Crypto.Cipher.AES` provides to `crypto.py`) -/

/-- The AES S-box (FIPS-197). -/
def sbox : List Nat :=
  [0x63, 0x7c, 0x77, 0x7b, 0xf2, 0x6b, 0x6f, 0xc5, 0x30, 0x01, 0x67, 0x2b, 0xfe, 0xd7, 0xab, 0x76,
   0xca, 0x82, 0xc9, 0x7d, 0xfa, 0x59, 0x47, 0xf0, 0xad, 0xd4, 0xa2, 0xaf, 0x9c, 0xa4, 0x72, 0xc0,
   0xb7, 0xfd, 0x93, 0x26, 0x36, 0x3f, 0xf7, 0xcc, 0x34, 0xa5, 0xe5, 0xf1, 0x71, 0xd8, 0x31, 0x15,
   0x04, 0xc7, 0x23, 0xc3, 0x18, 0x96, 0x05, 0x9a, 0x07, 0x12, 0x80, 0xe2, 0xeb, 0x27, 0xb2, 0x75,
   0x09, 0x83, 0x2c, 0x1a, 0x1b, 0x6e, 0x5a, 0xa0, 0x52, 0x3b, 0xd6, 0xb3, 0x29, 0xe3, 0x2f, 0x84,
   0x53, 0xd1, 0x00, 0xed, 0x20, 0xfc, 0xb1, 0x5b, 0x6a, 0xcb, 0xbe, 0x39, 0x4a, 0x4c, 0x58, 0xcf,
   0xd0, 0xef, 0xaa, 0xfb, 0x43, 0x4d, 0x33, 0x85, 0x45, 0xf9, 0x02, 0x7f, 0x50, 0x3c, 0x9f, 0xa8,
   0x51, 0xa3, 0x40, 0x8f, 0x92, 0x9d, 0x38, 0xf5, 0xbc, 0xb6, 0xda, 0x21, 0x10, 0xff, 0xf3, 0xd2,
   0xcd, 0x0c, 0x13, 0xec, 0x5f, 0x97, 0x44, 0x17, 0xc4, 0xa7, 0x7e, 0x3d, 0x64, 0x5d, 0x19, 0x73,
   0x60, 0x81, 0x4f, 0xdc, 0x22, 0x2a, 0x90, 0x88, 0x46, 0xee, 0xb8, 0x14, 0xde, 0x5e, 0x0b, 0xdb,
   0xe0, 0x32, 0x3a, 0x0a, 0x49, 0x06, 0x24, 0x5c, 0xc2, 0xd3, 0xac, 0x62, 0x91, 0x95, 0xe4, 0x79,
   0xe7, 0xc8, 0x37, 0x6d, 0x8d, 0xd5, 0x4e, 0xa9, 0x6c, 0x56, 0xf4, 0xea, 0x65, 0x7a, 0xae, 0x08,
   0xba, 0x78, 0x25, 0x2e, 0x1c, 0xa6, 0xb4, 0xc6, 0xe8, 0xdd, 0x74, 0x1f, 0x4b, 0xbd, 0x8b, 0x8a,
   0x70, 0x3e, 0xb5, 0x66, 0x48, 0x03, 0xf6, 0x0e, 0x61, 0x35, 0x57, 0xb9, 0x86, 0xc1, 0x1d, 0x9e,
   0xe1, 0xf8, 0x98, 0x11, 0x69, 0xd9, 0x8e, 0x94, 0x9b, 0x1e, 0x87, 0xe9, 0xce, 0x55, 0x28, 0xdf,
   0x8c, 0xa1, 0x89, 0x0d, 0xbf, 0xe6, 0x42, 0x68, 0x41, 0x99, 0x2d, 0x0f, 0xb0, 0x54, 0xbb, 0x16]

/-- S-box lookup. -/
def sboxAt (b : Nat) : Nat := sbox.getD (b % 256) 0

/-- Multiplication by x in GF(2^8) with the AES reduction polynomial. -/
def xtime (b : Nat) : Nat := if b < 128 then b * 2 else (b * 2) ^^^ 0x11B

/-- Multiplication by 2 in GF(2^8). -/
def gmul2 (b : Nat) : Nat := xtime b

/-- Multiplication by 3 in GF(2^8). -/
def gmul3 (b : Nat) : Nat := xtime b ^^^ b

/-- Round constants of the AES key schedule. -/
def rcon : List Nat := [0x01, 0x02, 0x04, 0x08, 0x10, 0x20, 0x40, 0x80, 0x1B, 0x36]

/-- Rotate a 4-byte word left by one byte. -/
def rotWord (w : List Nat) : List Nat := w.drop 1 ++ w.take 1

/-- Apply the S-box to each byte of a word. -/
def subWord (w : List Nat) : List Nat := w.map sboxAt

/-- One step of the AES-128 key schedule: append word `i` (`4 ≤ i < 44`). -/
def ksStep (ws : List (List Nat)) (i : Nat) : List (List Nat) :=
  let wm1 := ws.getLastD []
  let wm4 := ws.getD (ws.length - 4) []
  let t := if i % 4 == 0 then xorBytes (subWord (rotWord wm1)) [rcon.getD (i / 4 - 1) 0, 0, 0, 0]
           else wm1
  ws ++ [xorBytes wm4 t]

/-- The 44 words of the expanded AES-128 key. -/
def keyWords (key : List Nat) : List (List Nat) :=
  (List.range 40).foldl (fun ws j => ksStep ws (j + 4))
    [key.take 4, (key.drop 4).take 4, (key.drop 8).take 4, (key.drop 12).take 4]

/-- Round key `r` (16 bytes) from the expanded key words. -/
def roundKey (ws : List (List Nat)) (r : Nat) : List Nat :=
  List.flatten ((ws.drop (4 * r)).take 4)

/-- SubBytes transformation on the 16-byte state. -/
def subBytes (s : List Nat) : List Nat := s.map sboxAt

/-- ShiftRows transformation; the state is stored column-major
(index `i` holds row `i % 4`, column `i / 4`). -/
def shiftRows (s : List Nat) : List Nat :=
  (List.range 16).map (fun i => s.getD (i % 4 + 4 * ((i / 4 + i % 4) % 4)) 0)

/-- MixColumns on one 4-byte column. -/
def mixOneColumn (a : List Nat) : List Nat :=
  let a0 := a.getD 0 0
  let a1 := a.getD 1 0
  let a2 := a.getD 2 0
  let a3 := a.getD 3 0
  [gmul2 a0 ^^^ gmul3 a1 ^^^ a2 ^^^ a3,
   a0 ^^^ gmul2 a1 ^^^ gmul3 a2 ^^^ a3,
   a0 ^^^ a1 ^^^ gmul2 a2 ^^^ gmul3 a3,
   gmul3 a0 ^^^ a1 ^^^ a2 ^^^ gmul2 a3]

/-- MixColumns transformation on the 16-byte state. -/
def mixColumns (s : List Nat) : List Nat :=
  List.flatten ((List.range 4).map (fun c => mixOneColumn ((s.drop (4 * c)).take 4)))

/-- One full AES round. -/
def aesRound (rk s : List Nat) : List Nat := xorBytes (mixColumns (shiftRows (subBytes s))) rk

/-- The final AES round (no MixColumns). -/
def aesFinalRound (rk s : List Nat) : List Nat := xorBytes (shiftRows (subBytes s)) rk

/-- AES-128 encryption of one 16-byte block. -/
def aesEncryptBlock (key block : List Nat) : List Nat :=
  let ws := keyWords key
  let s0 := xorBytes block (roundKey ws 0)
  let s9 := (List.range 9).foldl (fun s r => aesRound (roundKey ws (r + 1)) s) s0
  aesFinalRound (roundKey ws 10) s9

/-- One CBC chaining step: carry the ciphertext so far and the previous block. -/
def cbcStep (key : List Nat) (acc : List Nat × List Nat) (blk : List Nat) : List Nat × List Nat :=
  let c := aesEncryptBlock key (xorBytes blk acc.2)
  (acc.1 ++ c, c)

/-- AES-128-CBC encryption of a padded byte string. -/
def cbcEncrypt (key iv data : List Nat) : List Nat :=
  ((chunks16 data).foldl (cbcStep key) ([], iv)).1

/-- AES-128-ECB encryption of a padded byte string. -/
def ecbEncrypt (key data : List Nat) : List Nat :=
  List.flatten ((chunks16 data).map (aesEncryptBlock key))

/-! ## Base64 and hex rendering -/

/-- The base64 alphabet. -/
def b64Alphabet : List Char :=
  "ABCDEFGHIJKLMNOPQRSTUVWXYZabcdefghijklmnopqrstuvwxyz0123456789+/".toList

/-- ASCII code of the base64 digit with value `i`. -/
def b64Char (i : Nat) : Nat := (b64Alphabet.getD i 'A').toNat

/-- Base64 encoding of a byte string, as ASCII bytes (61 is the code of the
padding character). -/
def b64encode : List Nat → List Nat
  | [] => []
  | [a] =>
    let n := a * 65536
    [b64Char (n / 262144), b64Char (n / 4096 % 64), 61, 61]
  | [a, b] =>
    let n := a * 65536 + b * 256
    [b64Char (n / 262144), b64Char (n / 4096 % 64), b64Char (n / 64 % 64), 61]
  | a :: b :: c :: rest =>
    let n := a * 65536 + b * 256 + c
    [b64Char (n / 262144), b64Char (n / 4096 % 64), b64Char (n / 64 % 64), b64Char (n % 64)]
      ++ b64encode rest

/-- Lowercase hex digit for a value below 16. -/
def hexDigitChar (d : Nat) : Char :=
  if d < 10 then Char.ofNat (48 + d) else Char.ofNat (87 + d)

/-- Lowercase hex rendering of a natural number, as Python `format(n, 'x')`. -/
def hexRepr (n : Nat) : String :=
  if n = 0 then "0" else String.mk ((Nat.digits 16 n).reverse.map hexDigitChar)

/-- Left-pad a string with `'0'` to length `k`, as Python `str.zfill` on a
non-negative number. -/
def zfill (k : Nat) (s : String) : String :=
  String.mk (List.replicate (k - s.length) '0') ++ s

/-- Fast modular exponentiation, as Python's three-argument `pow`. -/
def powMod (b e n : Nat) : Nat :=
  if h : e = 0 then 1 % n
  else
    let r := powMod (b * b % n) (e / 2) n
    if e % 2 = 1 then r * b % n else r
termination_by e
decreasing_by
  have : 0 < e := Nat.pos_of_ne_zero h
  omega

/-! ## crypto.py: WEAPI (Scheme A) encryption -/

/-- Fixed preset AES key of `crypto.py`. -/
def WEAPI_PRESET_KEY : List Nat := strBytes "0CoJUm6Qyw8W8jud"

/-- Fixed AES IV of `crypto.py` (the ASCII bytes of the digit string). -/
def WEAPI_IV : List Nat := strBytes "0102030405060708"

/-- Fixed RSA public exponent of `crypto.py`. -/
def WEAPI_RSA_EXPONENT : Nat := 0x010001

/-- Fixed 1024-bit RSA modulus of `crypto.py`. -/
def WEAPI_RSA_MODULUS : Nat :=
  0x00e0b509f6259df8642dbc35662901477df22677ec152b5ff68ace615bb7b725152b3ab17a876aea8a5aa76d2e417629ec4ee341f56135fccf695280104e0312ecbda92557c93870114af6c9d05c4f7f0c3685b7a46bee255932575cce10b424d813cfe4875d3e82047b97ddef52741d546b8e289dc6935b3ece0462db0a22b8e7

/-- Embedding of `crypto.aes_encrypt` (crypto.py lines 36-50): AES-128-CBC with
the fixed IV and PKCS#7 padding, base64-encoded. -/
def aes_encrypt (plaintext key : List Nat) : List Nat :=
  b64encode (cbcEncrypt key WEAPI_IV (pad16 plaintext))

/-- Embedding of `crypto.rsa_encrypt` (crypto.py lines 53-71): reverse the
bytes, interpret as a big-endian integer, raise to the fixed exponent modulo
the fixed modulus, render in hex, zero-fill to 256 characters. -/
def rsa_encrypt (plaintext : List Nat) : String :=
  zfill 256 (hexRepr (powMod (bytesToNatBE plaintext.reverse) WEAPI_RSA_EXPONENT WEAPI_RSA_MODULUS))

/-- The dictionary returned by `weapi_encrypt`. -/
structure WeapiPayload where
  params : String
  encSecKey : String
deriving DecidableEq, Repr

/-- Embedding of `crypto.weapi_encrypt` (crypto.py lines 74-100). The random
16-byte alphanumeric session key produced by `create_secret_key` and the
compact JSON serialization of the body are explicit parameters, so the
function is the deterministic core of the source function. -/
def weapi_encrypt (text secretKey : List Nat) : WeapiPayload :=
  { params := asciiString (aes_encrypt (aes_encrypt text WEAPI_PRESET_KEY) secretKey),
    encSecKey := rsa_encrypt secretKey }

/-! ## crypto: EAPI (Scheme B) encryption

The source file `src/src/ncm/client.py` imports `eapi_encrypt` from
`.crypto` (line 27) and calls it in `_eapi_request` (line 166), but the
definition of `eapi_encrypt` is absent from `src/src/ncm/crypto.py`, so the
function is modelled from the spec below. -/

/-- Scheme-specific EAPI AES key (the spec fixes only that a scheme-specific
key exists; the value is the service's known constant). -/
def EAPI_KEY : List Nat := strBytes "e82ckenh8dichen8"

/-- Modelled from the spec: the digest input string binding the API path and
the serialized body ("construct a digest string binding the path and
serialized body (scheme-specific message format)"); the scheme's digest
function itself is abstracted as this binding string. -/
def eapiDigestData (path text : String) : String :=
  "nobody" ++ path ++ "use" ++ text ++ "md5forencrypt"

/-- Modelled from the spec: the scheme-specific message format combining the
path, the serialized body and the digest string. -/
def eapiMessage (path text : String) : String :=
  path ++ "-36cd479b6b5-" ++ text ++ "-36cd479b6b5-" ++ eapiDigestData path text

/-- Two lowercase hex characters for one byte. -/
def byteHex (b : Nat) : String := String.mk [hexDigitChar (b / 16 % 16), hexDigitChar (b % 16)]

/-- Hex rendering of a byte string. -/
def bytesHex (bs : List Nat) : String := String.join (bs.map byteHex)

/-- Modelled from the spec: `eapi_encrypt`, missing from
`src/src/ncm/crypto.py` although `src/src/ncm/client.py` line 27 imports it
from there. Spec §4.1 Scheme B: given an API path and a serialized request
body, construct the digest message binding both, AES-encrypt it under the
scheme-specific key, and emit a single encoded form body. -/
def eapi_encrypt (path text : String) : String :=
  bytesHex (ecbEncrypt EAPI_KEY (pad16 (strBytes (eapiMessage path text))))

/-! ## client.py: transport result classification -/

/-- Outcome of the underlying HTTP POST inside `_request` / `_eapi_request`:
either a 2xx response with a JSON body, or one of the failure modes the
source catches (`requests.Timeout`, any other `requests.RequestException`
covering non-2xx responses raised by `raise_for_status` and connection
errors, and `json.JSONDecodeError`). -/
inductive TransportOutcome where
  | success (body : String)
  | timeout
  | transportError (detail : String)
  | decodeError
deriving DecidableEq, Repr

/-- Whether the transport outcome is a failure. -/
def TransportOutcome.isFailure : TransportOutcome → Bool
  | .success _ => false
  | _ => true

/-- Value returned across the `_request` / `_eapi_request` boundary: either
the decoded JSON body or the failure dictionary with its `code` and
`message` fields. -/
inductive ApiValue where
  | json (body : String)
  | failure (code : Int) (message : String)
deriving DecidableEq, Repr

/-- Message string the source attaches to each failure mode
(client.py lines 142-147 and 201-206). -/
def classifyFailure : TransportOutcome → String
  | .success _ => ""
  | .timeout => "Request timeout"
  | .transportError d => d
  | .decodeError => "Invalid JSON response"

/-- Embedding of `NCMClient._request` (client.py lines 110-147): encrypt the
payload with `weapi_encrypt` (the random session key is explicit), POST, and
map every caught failure to the code -1 dictionary. Returns the encrypted
form body that is sent together with the returned value. -/
def NCMClient.request (data : String) (secretKey : List Nat) (o : TransportOutcome) :
    WeapiPayload × ApiValue :=
  (weapi_encrypt (strBytes data) secretKey,
    match o with
    | .success body => .json body
    | .timeout => .failure (-1) "Request timeout"
    | .transportError d => .failure (-1) d
    | .decodeError => .failure (-1) "Invalid JSON response")

/-- URL rewriting of `_eapi_request` (client.py line 164):
`/api/...` becomes `https://music.163.com/eapi/...`. -/
def NCMClient.eapiRequestUrl (path : String) : String :=
  "https://music.163.com/eapi" ++ path.drop 4

/-- Embedding of `NCMClient._eapi_request` (client.py lines 149-206): encode
the body with `eapi_encrypt`, POST, and map every caught failure to the
code -1 dictionary. Returns the encoded form body that is sent together
with the returned value. -/
def NCMClient.eapiRequest (path data : String) (o : TransportOutcome) : String × ApiValue :=
  (eapi_encrypt path data,
    match o with
    | .success body => .json body
    | .timeout => .failure (-1) "Request timeout"
    | .transportError d => .failure (-1) d
    | .decodeError => .failure (-1) "Invalid JSON response")

/-! ## server.py: the catalog -/

/-- One row of the `music` table (server.py lines 37-61). `created_at` is
not modelled (no claim depends on time). Nullable columns are `Option`. -/
structure MusicRec where
  source : Option Nat
  title : Option String
  artist : Option String
  filePath : Option String
  fileSize : Nat
  downloaded : Bool
  status : Nat
deriving DecidableEq, Repr

/-- The catalog: at most one record per song id (the primary key). -/
def Catalog : Type := Nat → Option MusicRec

/-- Write (insert or overwrite) the record of one id. -/
def dbSet (c : Catalog) (i : Nat) (r : MusicRec) : Catalog :=
  fun j => if j = i then some r else c j

/-- The placeholder record created when claiming an absent id
(server.py line 167): `Music(id=sid, status=1, downloaded=False)` with the
column defaults for the unset fields. -/
def freshClaimRec : MusicRec :=
  { source := none, title := none, artist := none, filePath := none,
    fileSize := 0, downloaded := false, status := 1 }

/-- Embedding of the per-id claim step of `start_background_download`
(server.py lines 160-182): an absent id gets the placeholder `Downloading`
record; a record with `downloaded` false and `status` other than 1 is
switched to `status = 1`; any other record is skipped, with no change and
no error surfaced (the `continue` branch). The returned Boolean says
whether the id was claimed (appended to `to_download`). -/
def claimSong (c : Catalog) (sid : Nat) : Catalog × Bool :=
  match c sid with
  | none => (dbSet c sid freshClaimRec, true)
  | some r =>
    if r.downloaded = false ∧ r.status ≠ 1 then (dbSet c sid { r with status := 1 }, true)
    else (c, false)

/-- The claim loop of `start_background_download` (server.py lines 158-182):
claim each requested id in turn, collecting the claimed ones as
`to_download`. -/
def startBackgroundDownloadClaims (c : Catalog) (ids : List Nat) : Catalog × List Nat :=
  ids.foldl (fun acc sid =>
    let step := claimSong acc.1 sid
    (step.1, if step.2 then acc.2 ++ [sid] else acc.2)) (c, [])

/-! ## server.py: the background worker -/

/-- Last path component, as `os.path.basename` for slash-separated paths. -/
def basename (s : String) : String := (s.splitOn "/").getLastD ""

/-- The fully populated record committed after a successful download
(server.py lines 226-241). -/
def completedRec (filename : String) (sz : Nat) (t a : String) : MusicRec :=
  { source := some 1, title := some t, artist := some a, filePath := some filename,
    fileSize := sz, downloaded := true, status := 2 }

/-- Commit of a successful download: update or insert the record of `sid`
with every field set, `downloaded = True`, `status = 2`
(server.py lines 226-241). -/
def commitDownloaded (c : Catalog) (sid : Nat) (filename : String) (sz : Nat) (t a : String) :
    Catalog :=
  dbSet c sid (completedRec filename sz t a)

/-- The `finally` block of the worker (server.py lines 249-258): if the
record exists and is still not downloaded, set `status` back to 0. -/
def resetIfNotDownloaded (c : Catalog) (sid : Nat) : Catalog :=
  match c sid with
  | some r => if r.downloaded = false then dbSet c sid { r with status := 0 } else c
  | none => c

/-- One iteration of the worker loop (server.py lines 200-258) for id `sid`:
`dl sid` is the result of `downloader.download_song` (`none` on a caught
exception or an empty return), `fsExists`/`fsSize` model the filesystem
checks on the basename, `title`/`artist` the `detail_map` lookups. On a
usable result the completed record is committed; the `finally` block then
resets any record still not downloaded. -/
def runWorkerStep (dl : Nat → Option String) (fsExists : String → Bool) (fsSize : String → Nat)
    (title artist : Nat → String) (c : Catalog) (sid : Nat) : Catalog :=
  let c1 :=
    match dl sid with
    | some p =>
      let filename := basename p
      if fsExists filename then
        commitDownloaded c sid filename (fsSize filename) (title sid) (artist sid)
      else c
    | none => c
  resetIfNotDownloaded c1 sid

/-- The worker body `run` (server.py lines 188-260). `detailIds` is the list
of ids that came back from the batch metadata lookup `get_song_detail`
(empty when that lookup fails); the line `ids_to_dl = [i for i in detail_map]`
replaces the claimed batch by exactly these ids, so only they are iterated. -/
def runWorker (detailIds : List Nat) (dl : Nat → Option String) (fsExists : String → Bool)
    (fsSize : String → Nat) (title artist : Nat → String) (c : Catalog) : Catalog :=
  detailIds.foldl (runWorkerStep dl fsExists fsSize title artist) c

/-- Embedding of `start_background_download` (server.py lines 153-263):
claim the requested ids, then, if any were claimed, run the worker on the
ids returned by the metadata lookup (`detailOf` models
`client.get_song_detail` returning the ids of `detail_map`). Returns the
final catalog and the list of claimed ids. -/
def startBackgroundDownload (ids : List Nat) (detailOf : List Nat → List Nat)
    (dl : Nat → Option String) (fsExists : String → Bool) (fsSize : String → Nat)
    (title artist : Nat → String) (c : Catalog) : Catalog × List Nat :=
  let claimed := startBackgroundDownloadClaims c ids
  if claimed.2.isEmpty then claimed
  else (runWorker (detailOf claimed.2) dl fsExists fsSize title artist claimed.1, claimed.2)

/-! ## server.py: startup local-file sync -/

/-- The record inserted by the startup sync for a discovered file
(server.py lines 126-134). -/
def syncRec (sid : Nat) (filename : String) (sz : Nat) : MusicRec :=
  { source := some 1, title := some ("Unknown-" ++ toString sid), artist := none,
    filePath := some filename, fileSize := sz, downloaded := true, status := 2 }

/-- Embedding of `sync_local_files_to_db` (server.py lines 100-142): for each
discovered audio file, given as the parsed trailing id (`none` when the
filename does not follow the naming rule and the `ValueError` branch skips
it), the filename and the size, insert a completed record when the id has
no record yet. -/
def syncLocalFilesToDb (files : List (Option Nat × String × Nat)) (c : Catalog) : Catalog :=
  files.foldl (fun acc f =>
    match f.1 with
    | none => acc
    | some sid =>
      match acc sid with
      | some _ => acc
      | none => dbSet acc sid (syncRec sid f.2.1 f.2.2)) c

/-- The catalog invariant of the spec: a record is marked `downloaded`
exactly when its status is 2 (Completed). -/
def dbInv (c : Catalog) : Prop :=
  ∀ i r, c i = some r → (r.downloaded = true ↔ r.status = 2)

/-! ## server.py: the claim step under concurrency

The claim step is a read followed by a separate write commit. The write is
atomic at the database: an INSERT fails on a duplicate primary key (the
`IntegrityError` rollback of server.py lines 179-182), while the UPDATE
`record.status = 1` commits unconditionally, keyed only on the id — it does
not re-check `status`. Two concurrent callers are modelled as interleaved
read and write steps against the shared catalog. -/

/-- Per-caller progress through the claim step: not yet read, read the
record snapshot, or finished with the claim outcome. `finished true` means
the caller appends the id to `to_download` and dispatches a fetch. -/
inductive CallerState where
  | idle
  | readDone (r : Option MusicRec)
  | finished (claimed : Bool)
deriving DecidableEq, Repr

/-- The commit a caller issues given the record snapshot `r` it read:
for an absent snapshot, an INSERT that the primary key makes atomic (it
fails and rolls back when a record exists by commit time); for a pending
snapshot, an unconditional UPDATE of `status`; otherwise no write. -/
def claimWrite (c : Catalog) (sid : Nat) (r : Option MusicRec) : Catalog × Bool :=
  match r with
  | none =>
    match c sid with
    | none => (dbSet c sid freshClaimRec, true)
    | some _ => (c, false)
  | some rec =>
    if rec.downloaded = false ∧ rec.status ≠ 1 then (dbSet c sid { rec with status := 1 }, true)
    else (c, false)

/-- One atomic step of a caller running the claim protocol. -/
def callerStep (c : Catalog) (sid : Nat) (st : CallerState) : Catalog × CallerState :=
  match st with
  | .idle => (c, .readDone (c sid))
  | .readDone r =>
    let w := claimWrite c sid r
    (w.1, .finished w.2)
  | .finished b => (c, .finished b)

/-- Run two callers A and B of the claim step on the same id under a
schedule: `false` steps A, `true` steps B. -/
def racePair (sid : Nat) : List Bool → Catalog → CallerState → CallerState →
    Catalog × CallerState × CallerState
  | [], c, a, b => (c, a, b)
  | s :: rest, c, a, b =>
    if s then
      let st := callerStep c sid b
      racePair sid rest st.1 a st.2
    else
      let st := callerStep c sid a
      racePair sid rest st.1 st.2 b

/-! ## models.py and the /song/url route -/

/-- The `SongUrl` model (models.py lines 86-107), with the fields the
embedded code reads. -/
structure SongUrlM where
  id : Nat
  url : Option String
  size : Nat
  type : String
  level : String
deriving DecidableEq, Repr

/-- Python truthiness of the `url` field (`None` and the empty string are
falsy). -/
def urlTruthy : Option String → Bool
  | none => false
  | some s => !s.isEmpty

/-- Response of the `/song/url` route: the cached local file (served
filename and extension), network-resolved URL data, or the 404 branch. -/
inductive RouteResp where
  | cached (filename : String) (fileType : String)
  | netData (urls : List SongUrlM)
  | notFound
deriving Repr

/-- Observable outcome of one `/song/url` request: the HTTP response, the
catalog afterwards, how many upstream URL requests were issued, and which
ids were claimed for a background fetch. -/
structure RouteResult where
  resp : RouteResp
  catalog : Catalog
  netCalls : Nat
  dispatched : List Nat

/-- Embedding of the `get_song_url` route (server.py lines 325-376): if a
`downloaded` record with a truthy `file_path` exists and the file is still
on disk, answer from the cache with no network call and no write; otherwise
query `get_song_url_eapi` (one network call), fall back to `get_song_url`
(a second call) when the first yields nothing usable, return 404 when both
yield nothing, and otherwise trigger `start_background_download` for the id
and return the resolved data. `eapiUrls` and `weapiUrls` are the two
clients' responses for this id. The background worker itself runs
asynchronously and is not part of the route's own effect. -/
def getSongUrlRoute (c : Catalog) (sid : Nat) (fsExists : String → Bool)
    (eapiUrls weapiUrls : List SongUrlM) : RouteResult :=
  let localHit :=
    match c sid with
    | some r =>
      if r.downloaded = true then
        match r.filePath with
        | some fp => if fp ≠ "" ∧ fsExists (basename fp) = true then some fp else none
        | none => none
      else none
    | none => none
  match localHit with
  | some fp =>
    { resp := .cached (basename fp) ((fp.splitOn ".").getLastD ""),
      catalog := c, netCalls := 0, dispatched := [] }
  | none =>
    let net :=
      match eapiUrls with
      | u :: rest => if urlTruthy u.url then (u :: rest, 1) else (weapiUrls, 2)
      | [] => (weapiUrls, 2)
    if net.1.isEmpty then { resp := .notFound, catalog := c, netCalls := net.2, dispatched := [] }
    else
      let claimed := startBackgroundDownloadClaims c [sid]
      { resp := .netData net.1, catalog := claimed.1, netCalls := net.2, dispatched := claimed.2 }

/-- Catalog after `n` repeated `/song/url` requests for the same id against
an unchanged filesystem and upstream. -/
def routeIter (c : Catalog) (sid : Nat) (fsExists : String → Bool)
    (eapiUrls weapiUrls : List SongUrlM) : Nat → Catalog
  | 0 => c
  | n + 1 => (getSongUrlRoute (routeIter c sid fsExists eapiUrls weapiUrls n) sid fsExists
      eapiUrls weapiUrls).catalog

/-! ## downloader.py: quality fallback resolution of download_song -/

/-- The fixed fallback priority list (downloader.py line 401). -/
def fallback_qualities : List String :=
  ["jymaster", "sky", "jyeffect", "hires", "lossless", "exhigh", "higher", "standard"]

/-- The extension table of the downloader (downloader.py lines 71-77). -/
def EXTENSIONS : List (String × String) :=
  [("standard", "mp3"), ("higher", "mp3"), ("exhigh", "mp3"),
   ("lossless", "flac"), ("hires", "flac")]

/-- `EXTENSIONS.get(quality, 'mp3')`. -/
def extFor (q : String) : String :=
  (((EXTENSIONS.find? (fun p => p.1 == q)).map (fun p => p.2)).getD "mp3")

/-- Upstream answers available to `download_song` for one song id:
`eapi q` is `get_song_url_eapi([id], q)`, `dl b q` is
`get_download_url(id, q)` on the anonymous (`b = false`) or authenticated
(`b = true`) client, `stream b q` is `get_song_url([id], q)` likewise. -/
structure UrlOracle where
  eapi : String → List SongUrlM
  dl : Bool → String → Option SongUrlM
  stream : Bool → String → List SongUrlM

/-- The check `urls and urls[0].url` applied to a URL list. -/
def headUsable (l : List SongUrlM) : Option SongUrlM :=
  match l with
  | u :: _ => if urlTruthy u.url then some u else none
  | [] => none

/-- The check `song_url and song_url.url`. -/
def usable : Option SongUrlM → Bool
  | some u => urlTruthy u.url
  | none => false

/-- The EAPI fallback loop (downloader.py lines 419-427): iterate the
remaining qualities, skipping the requested one, and stop at the first
response whose first URL is truthy, recording the quality actually used. -/
def eapiFallbackGo (o : UrlOracle) (q0 : String) : List String → Option SongUrlM × String
  | [] => (none, q0)
  | q :: rest =>
    if q = q0 then eapiFallbackGo o q0 rest
    else
      match headUsable (o.eapi q) with
      | some u => (some u, q)
      | none => eapiFallbackGo o q0 rest

/-- The EAPI phase for VIP songs (downloader.py lines 413-427): try the
requested quality first, then the fallback loop. -/
def eapiPhase (o : UrlOracle) (q0 : String) : Option SongUrlM × String :=
  match headUsable (o.eapi q0) with
  | some u => (some u, q0)
  | none => eapiFallbackGo o q0 fallback_qualities

/-- The download-URL fallback loop of the WEAPI phase (downloader.py lines
437-444); the loop variable `song_url` is overwritten by every call, so the
last unusable answer is carried out of the loop. -/
def weapiDlFallback (o : UrlOracle) (b : Bool) (q0 : String) :
    List String → Option SongUrlM → Option SongUrlM × String
  | [], last => (last, q0)
  | q :: rest, last =>
    if q = q0 then weapiDlFallback o b q0 rest last
    else
      let s := o.dl b q
      if usable s then (s, q) else weapiDlFallback o b q0 rest s

/-- The streaming-URL fallback loop of the WEAPI phase (downloader.py lines
448-454): no quality is skipped here and `song_url` is only assigned on a
usable answer. -/
def weapiStreamFallback (o : UrlOracle) (b : Bool) (q0 : String) :
    List String → Option SongUrlM → Option SongUrlM × String
  | [], last => (last, q0)
  | q :: rest, last =>
    match headUsable (o.stream b q) with
    | some u => (some u, q)
    | none => weapiStreamFallback o b q0 rest last

/-- One client's pass of the WEAPI phase (downloader.py lines 431-456):
download URL at the current quality, then the download-URL fallback loop,
then the streaming-URL fallback loop. -/
def weapiClient (o : UrlOracle) (b : Bool) (q0 : String) : Option SongUrlM × String :=
  let s1 := o.dl b q0
  if usable s1 then (s1, q0)
  else
    let r2 := weapiDlFallback o b q0 fallback_qualities s1
    if usable r2.1 then r2
    else weapiStreamFallback o b r2.2 fallback_qualities r2.1

/-- The WEAPI phase (downloader.py lines 430-456): the anonymous URL client
first, then the authenticated client. -/
def weapiPhase (o : UrlOracle) (q0 : String) : Option SongUrlM × String :=
  let r1 := weapiClient o false q0
  if usable r1.1 then r1 else weapiClient o true r1.2

/-- The URL resolution of `download_song` (downloader.py lines 400-456) in
the configuration without the optional musicdl client (absent by default):
the EAPI phase runs only for VIP songs, and the WEAPI phase runs whenever
no usable URL is held yet. Returns the resolved `song_url` and the quality
variable after resolution. -/
def downloadSongResolve (o : UrlOracle) (isVip : Bool) (q0 : String) :
    Option SongUrlM × String :=
  let e := if isVip then eapiPhase o q0 else (none, q0)
  if usable e.1 then e else weapiPhase o e.2

/-- The extension chosen for the output file (downloader.py line 463):
`song_url.type or EXTENSIONS.get(quality, 'mp3')` with the quality variable
left by resolution; `none` when resolution failed and `download_song`
returns early. -/
def downloadSongExtension (o : UrlOracle) (isVip : Bool) (q0 : String) : Option String :=
  let r := downloadSongResolve o isVip q0
  match r.1 with
  | some u =>
    if urlTruthy u.url then some (if u.type ≠ "" then u.type else extFor r.2) else none
  | none => none

/-- The first quality in the fallback priority list, other than the
requested one, whose EAPI answer carries a usable URL — the level the spec
says fallback resolution must return. -/
def firstFallbackHit (o : UrlOracle) (q0 : String) : Option (String × SongUrlM) :=
  (fallback_qualities.filter (fun q => q != q0)).findSome?
    (fun q => (headUsable (o.eapi q)).map (fun u => (q, u)))

/-! ## Helper lemmas -/

theorem powMod_eq (b e n : Nat) (hn : 0 < n) : powMod b e n = b ^ e % n := by
  induction e using Nat.strong_induction_on generalizing b with
  | _ e ih =>
    rw [powMod]
    split
    next h => subst h; simp
    next h =>
      have h2 : e / 2 < e := Nat.div_lt_self (Nat.pos_of_ne_zero h) (by omega)
      rw [ih (e / 2) h2 (b * b % n)]
      rw [← Nat.pow_mod]
      have hsq : (b * b) ^ (e / 2) = b ^ (2 * (e / 2)) := by
        rw [Nat.pow_mul]
        ring_nf
      split
      next hodd =>
        rw [hsq, Nat.mod_mul_mod]
        have hpow : b ^ (2 * (e / 2)) * b = b ^ e := by
          rw [← Nat.pow_succ]
          congr 1
          omega
        rw [hpow]
      next heven =>
        have he : e = 2 * (e / 2) := by omega
        rw [hsq, ← he]

theorem hexRepr_length_le (v k : Nat) (hk : 0 < k) (h : v < 16 ^ k) :
    (hexRepr v).length ≤ k := by
  unfold hexRepr
  split
  next =>
    have h1 : ("0" : String).length = 1 := rfl
    omega
  next hv =>
    have hlen : (Nat.digits 16 v).length = Nat.log 16 v + 1 :=
      Nat.digits_len 16 v (by norm_num) hv
    have hlog : Nat.log 16 v < k := (Nat.lt_pow_iff_log_lt (by norm_num) hv).mp h
    have hmk : (String.mk ((Nat.digits 16 v).reverse.map hexDigitChar)).length =
        (Nat.digits 16 v).length := by
      simp [String.length_mk]
    omega

theorem zfill_length (k : Nat) (s : String) (h : s.length ≤ k) : (zfill k s).length = k := by
  unfold zfill
  rw [String.length_append]
  have h1 : (String.mk (List.replicate (k - s.length) '0')).length = k - s.length := by
    simp [String.length_mk]
  omega

theorem hexDigitChar_mem (d : Nat) (h : d < 16) :
    hexDigitChar d ∈ "0123456789abcdef".toList := by
  interval_cases d <;> decide

theorem hexRepr_chars (v : Nat) :
    ∀ ch ∈ (hexRepr v).toList, ch ∈ "0123456789abcdef".toList := by
  unfold hexRepr
  split
  · intro ch hch
    simp [String.toList] at hch
    subst hch
    decide
  · intro ch hch
    simp only [String.toList] at hch
    obtain ⟨d, hd, rfl⟩ := List.mem_map.mp hch
    exact hexDigitChar_mem d (Nat.digits_lt_base (by norm_num) (List.mem_reverse.mp hd))

theorem zfill_chars (k : Nat) (s : String)
    (hs : ∀ ch ∈ s.toList, ch ∈ "0123456789abcdef".toList) :
    ∀ ch ∈ (zfill k s).toList, ch ∈ "0123456789abcdef".toList := by
  intro ch hch
  simp only [zfill, String.toList] at hch
  rw [String.data_append] at hch
  rcases List.mem_append.mp hch with h | h
  · have : ch = '0' := List.eq_of_mem_replicate h
    subst this
    decide
  · exact hs ch h

/-! ## Claim C5 -/

/-- C5: for every serialized request body and every 16-byte session key (of
genuine bytes), `weapi_encrypt` returns exactly the `params` and `encSecKey`
fields, where `params` is the base64 AES-128-CBC encryption (fixed IV,
PKCS#7 padding) under the session key of the base64 AES-128-CBC encryption
under the preset key of the serialized body, and `encSecKey` is the
byte-reversed session key read as a big-endian integer, raised to `0x010001`
modulo the fixed modulus, rendered as a lowercase hex string zero-padded to
exactly 256 characters. The output is a pure function of the body text and
the session key, hence deterministic given the session key. -/
theorem weapi_encrypt_spec (text key : List Nat)
    (hlen : key.length = 16) (hbytes : ∀ b ∈ key, b < 256) :
    weapi_encrypt text key =
      { params := asciiString (b64encode (cbcEncrypt key WEAPI_IV (pad16
          (b64encode (cbcEncrypt WEAPI_PRESET_KEY WEAPI_IV (pad16 text)))))),
        encSecKey :=
          zfill 256 (hexRepr (bytesToNatBE key.reverse ^ 0x010001 % WEAPI_RSA_MODULUS)) } ∧
    (weapi_encrypt text key).encSecKey.length = 256 ∧
    ∀ ch ∈ (weapi_encrypt text key).encSecKey.toList, ch ∈ "0123456789abcdef".toList := by
  have hN : 0 < WEAPI_RSA_MODULUS := by norm_num [WEAPI_RSA_MODULUS]
  have hNlt : WEAPI_RSA_MODULUS < 16 ^ 256 := by norm_num [WEAPI_RSA_MODULUS]
  have hpm : powMod (bytesToNatBE key.reverse) WEAPI_RSA_EXPONENT WEAPI_RSA_MODULUS =
      bytesToNatBE key.reverse ^ 0x010001 % WEAPI_RSA_MODULUS :=
    powMod_eq _ _ _ hN
  have hv : bytesToNatBE key.reverse ^ 0x010001 % WEAPI_RSA_MODULUS < 16 ^ 256 :=
    lt_trans (Nat.mod_lt _ hN) hNlt
  have hkey : (weapi_encrypt text key).encSecKey =
      zfill 256 (hexRepr (bytesToNatBE key.reverse ^ 0x010001 % WEAPI_RSA_MODULUS)) := by
    simp [weapi_encrypt, rsa_encrypt, hpm]
  refine ⟨?_, ?_, ?_⟩
  · unfold weapi_encrypt aes_encrypt rsa_encrypt
    simp only [WeapiPayload.mk.injEq]
    exact ⟨trivial, by rw [hpm]⟩
  · rw [hkey]
    exact zfill_length 256 _ (hexRepr_length_le _ 256 (by norm_num) hv)
  · rw [hkey]
    exact zfill_chars 256 _ (hexRepr_chars _)

/-- Witness for C5 at a concrete body and session key. -/
theorem weapi_encrypt_spec_app :
    ((strBytes "A1b2C3d4E5f6G7h8").length = 16 ∧
      ∀ b ∈ strBytes "A1b2C3d4E5f6G7h8", b < 256) ∧
    (weapi_encrypt (strBytes "abc") (strBytes "A1b2C3d4E5f6G7h8")).encSecKey.length = 256 :=
  ⟨⟨by decide, by decide⟩,
   (weapi_encrypt_spec (strBytes "abc") (strBytes "A1b2C3d4E5f6G7h8")
      (by decide) (by decide)).2.1⟩

/-! ## Claim C8 -/

/-- C8: every failure a transport request can end in — timeout, non-2xx
response or connection error (the `requests.RequestException` branch), or
malformed JSON — is returned by `_request` and `_eapi_request` as a value:
the dictionary with `code = -1` and the message classifying the failure.
The embedded functions are total, so no exception crosses the boundary for
the modelled failure modes. -/
theorem transport_failure_returns_value (o : TransportOutcome) (data path : String)
    (key : List Nat) (h : o.isFailure = true) :
    (NCMClient.request data key o).2 = ApiValue.failure (-1) (classifyFailure o) ∧
    (NCMClient.eapiRequest path data o).2 = ApiValue.failure (-1) (classifyFailure o) := by
  cases o with
  | success b => simp [TransportOutcome.isFailure] at h
  | timeout => exact ⟨rfl, rfl⟩
  | transportError d => exact ⟨rfl, rfl⟩
  | decodeError => exact ⟨rfl, rfl⟩

/-- Witness for C8 at the timeout failure. -/
theorem transport_failure_returns_value_app :
    TransportOutcome.timeout.isFailure = true ∧
    (NCMClient.request "d" [] TransportOutcome.timeout).2 =
      ApiValue.failure (-1) (classifyFailure TransportOutcome.timeout) :=
  ⟨rfl, (transport_failure_returns_value TransportOutcome.timeout "d" "p" [] rfl).1⟩

/-! ## Claim C9 -/

/-- C9: the crypto layer provides a second request-encoding function,
`eapi_encrypt` (Scheme B), mapping an API path and a serialized body to a
single encoded form body; it is a pure function of those two inputs (the
sent body does not depend on the transport outcome), and `_eapi_request` is
exactly the client path that encodes with it. -/
theorem eapi_encrypt_selected_for_eapi (path data : String) (o : TransportOutcome) :
    (NCMClient.eapiRequest path data o).1 = eapi_encrypt path data ∧
    (∀ o2, (NCMClient.eapiRequest path data o2).1 = (NCMClient.eapiRequest path data o).1) ∧
    eapi_encrypt path data =
      bytesHex (ecbEncrypt EAPI_KEY (pad16 (strBytes (eapiMessage path data)))) :=
  ⟨rfl, fun _ => rfl, rfl⟩

/-! ## Claim C1 -/

/-- A pending record as the claim step's race partner sees it. -/
def pendingRecC1 : MusicRec :=
  { source := some 1, title := some "t", artist := some "a", filePath := none,
    fileSize := 0, downloaded := false, status := 0 }

/-- C1 fails on the code: the `Pending → Downloading` transition of
`start_background_download` is a read followed by an unconditional UPDATE,
not a compare-and-set. Under the schedule where both callers read the
pending record before either commits, both updates commit, both callers
finish with a successful claim, and both dispatch a fetch — contradicting
"exactly one caller succeeds ... every other caller observes no state
change and triggers no fetch". Only the absent-record INSERT is serialized
by the primary key. -/
theorem claim_race_double_dispatch :
    (racePair 7 [false, true, false, true]
        (fun j => if j = 7 then some pendingRecC1 else none)
        CallerState.idle CallerState.idle).2 =
      (CallerState.finished true, CallerState.finished true) ∧
    (racePair 7 [false, true, false, true]
        (fun j => if j = 7 then some pendingRecC1 else none)
        CallerState.idle CallerState.idle).1 7 =
      some { pendingRecC1 with status := 1 } := by
  constructor <;> rfl

/-! ## Claim C2 -/

/-- C2: the claim step of `start_background_download` claims an id exactly
when no record exists (creating the `status = 1`, `downloaded = false`
placeholder) or when the record has `downloaded` false and `status` other
than 1 (setting `status = 1` and changing nothing else); a record already
Downloading (`status = 1`) or Completed (`downloaded = true`) is never
modified and the id is dropped with no error value (the skip branch returns
the catalog unchanged); records of other ids are never touched. -/
theorem claim_step_transitions (c : Catalog) (sid : Nat) :
    (c sid = none → claimSong c sid = (dbSet c sid freshClaimRec, true)) ∧
    (∀ r, c sid = some r → r.downloaded = false → r.status ≠ 1 →
      claimSong c sid = (dbSet c sid { r with status := 1 }, true)) ∧
    (∀ r, c sid = some r → (r.downloaded = true ∨ r.status = 1) →
      claimSong c sid = (c, false)) ∧
    (∀ j, j ≠ sid → ((claimSong c sid).1) j = c j) := by
  refine ⟨?_, ?_, ?_, ?_⟩
  · intro h
    simp [claimSong, h]
  · intro r hr hd hs
    simp [claimSong, hr, hd, hs]
  · intro r hr hor
    rcases hor with h | h
    · simp [claimSong, hr, h]
    · simp [claimSong, hr, h]
  · intro j hj
    unfold claimSong
    cases hcs : c sid with
    | none => simp [dbSet, hj]
    | some r =>
      by_cases hc : r.downloaded = false ∧ r.status ≠ 1
      · simp [hc, dbSet, hj]
      · simp [hc]

/-- A pending record for the C2 witness. -/
def pendingRecC2 : MusicRec :=
  { source := none, title := none, artist := none, filePath := none,
    fileSize := 0, downloaded := false, status := 0 }

/-- Witness for C2: claiming a concrete pending record. -/
theorem claim_step_transitions_app :
    ((fun j => if j = 9 then some pendingRecC2 else none :
        Catalog) 9 = some pendingRecC2 ∧
      pendingRecC2.downloaded = false ∧ pendingRecC2.status ≠ 1) ∧
    claimSong (fun j => if j = 9 then some pendingRecC2 else none) 9 =
      (dbSet (fun j => if j = 9 then some pendingRecC2 else none) 9
        { pendingRecC2 with status := 1 }, true) :=
  ⟨⟨rfl, rfl, by decide⟩,
   (claim_step_transitions (fun j => if j = 9 then some pendingRecC2 else none) 9).2.1
     pendingRecC2 rfl rfl (by decide)⟩

/-! ## Claim C3 -/

/-- C3 fails on the code: a claimed id whose batch metadata lookup fails is
never reset. The worker replaces the claimed batch by the ids of
`detail_map` (`ids_to_dl = [i for i in detail_map]`), so when
`get_song_detail` fails (network error or exception), the per-id loop — and
with it the `finally` reset — never runs for the claimed id, which stays at
`status = 1` with `downloaded = false` forever, although nothing was
downloaded. Here id 7 is claimed, the metadata lookup returns nothing, and
the final catalog still holds the placeholder Downloading record. -/
theorem stuck_downloading_on_detail_failure :
    (startBackgroundDownload [7] (fun _ => []) (fun _ => none) (fun _ => false)
        (fun _ => 0) (fun _ => "") (fun _ => "") (fun _ => none)).1 7 =
      some freshClaimRec ∧
    freshClaimRec.status = 1 ∧ freshClaimRec.downloaded = false :=
  ⟨rfl, rfl, rfl⟩

/-! ## Claim C4 -/

/-- Writing a record that satisfies the flag-status equivalence preserves
the catalog invariant. -/
theorem dbInv_dbSet (c : Catalog) (i : Nat) (r : MusicRec) (h : dbInv c)
    (hr : r.downloaded = true ↔ r.status = 2) : dbInv (dbSet c i r) := by
  intro j s hs
  by_cases hj : j = i
  · subst hj
    simp [dbSet] at hs
    subst hs
    exact hr
  · simp [dbSet, hj] at hs
    exact h j s hs

/-- The startup sync preserves the catalog invariant. -/
theorem dbInv_syncFold (files : List (Option Nat × String × Nat)) (c : Catalog)
    (h : dbInv c) : dbInv (syncLocalFilesToDb files c) := by
  induction files generalizing c with
  | nil => exact h
  | cons f rest ih =>
    unfold syncLocalFilesToDb at ih ⊢
    rw [List.foldl_cons]
    apply ih
    cases hf : f.1 with
    | none => simpa [hf] using h
    | some sid =>
      cases hcs : c sid with
      | some r => simpa [hf, hcs] using h
      | none =>
        simp only [hf, hcs]
        exact dbInv_dbSet c sid _ h (by simp [syncRec])

/-- C4: every catalog write — the claim step, the successful-download
commit, the failed-download reset, and the startup local-file sync —
preserves the invariant that `downloaded = true` holds exactly when
`status = 2`. -/
theorem catalog_ops_preserve_inv (c : Catalog) (h : dbInv c) (sid : Nat) (fn : String)
    (sz : Nat) (t a : String) (files : List (Option Nat × String × Nat)) :
    dbInv (claimSong c sid).1 ∧ dbInv (commitDownloaded c sid fn sz t a) ∧
    dbInv (resetIfNotDownloaded c sid) ∧ dbInv (syncLocalFilesToDb files c) := by
  refine ⟨?_, ?_, ?_, dbInv_syncFold files c h⟩
  · unfold claimSong
    split
    · exact dbInv_dbSet c sid freshClaimRec h (by simp [freshClaimRec])
    · split
      next hc => exact dbInv_dbSet c sid _ h (by simp [hc.1])
      next => exact h
  · exact dbInv_dbSet c sid _ h (by simp [completedRec])
  · unfold resetIfNotDownloaded
    split
    next r hcs =>
      split
      next hd => exact dbInv_dbSet c sid _ h (by simp [hd])
      next => exact h
    next => exact h

/-- Witness for C4 on a concrete catalog satisfying the invariant. -/
theorem catalog_ops_preserve_inv_app :
    dbInv (fun _ => none) ∧ dbInv (claimSong (fun _ => none) 5).1 :=
  have h : dbInv (fun _ => none) := fun _ _ hir => Option.noConfusion hir
  ⟨h, (catalog_ops_preserve_inv (fun _ => none) h 5 "f" 0 "t" "a" []).1⟩

/-! ## Claim C7 -/

/-- C7: for a Completed record whose file is still on disk, the `/song/url`
route answers from the cache: zero upstream calls, the cached local file in
the response, no background fetch dispatched, and the catalog returned
unchanged — whatever the upstream would have answered. -/
theorem completed_cache_hit_no_network (c : Catalog) (sid : Nat) (fs : String → Bool)
    (e w : List SongUrlM) (r : MusicRec) (fp : String)
    (h1 : c sid = some r) (h2 : r.downloaded = true) (h3 : r.filePath = some fp)
    (h4 : fp ≠ "") (h5 : fs (basename fp) = true) :
    getSongUrlRoute c sid fs e w =
      { resp := RouteResp.cached (basename fp) ((fp.splitOn ".").getLastD ""),
        catalog := c, netCalls := 0, dispatched := [] } := by
  unfold getSongUrlRoute
  rw [h1]
  simp [h2, h3, h4, h5]

/-- The Completed record of the C7 witness. -/
def recC7 : MusicRec :=
  { source := some 1, title := some "t", artist := some "a",
    filePath := some "x - 3.mp3", fileSize := 5, downloaded := true, status := 2 }

/-- Witness for C7 on a concrete catalog and filesystem. -/
theorem completed_cache_hit_no_network_app :
    ((fun j => if j = 3 then some recC7 else none : Catalog) 3 = some recC7 ∧
      recC7.downloaded = true ∧ recC7.filePath = some "x - 3.mp3" ∧
      "x - 3.mp3" ≠ "" ∧ (fun _ => true : String → Bool) (basename "x - 3.mp3") = true) ∧
    (getSongUrlRoute (fun j => if j = 3 then some recC7 else none) 3
      (fun _ => true) [] []).netCalls = 0 := by
  refine ⟨⟨rfl, rfl, rfl, by decide, rfl⟩, ?_⟩
  rw [completed_cache_hit_no_network (fun j => if j = 3 then some recC7 else none) 3
    (fun _ => true) [] [] recC7 "x - 3.mp3" rfl rfl rfl (by decide) rfl]

/-! ## Claim C10 -/

/-- C10: when a record has `downloaded = true` but its file is gone from
disk, the claim step still skips the id — the skip is decided by the
`downloaded` flag alone (the claim step never consults the filesystem) —
so no re-download is ever dispatched, and every `/song/url` request for the
id misses the cache, issues at least one upstream call, dispatches nothing,
and leaves the catalog unchanged, so all subsequent requests behave the
same way. -/
theorem missing_file_skip_and_network (c : Catalog) (sid : Nat) (fs : String → Bool)
    (r : MusicRec) (h1 : c sid = some r) (h2 : r.downloaded = true)
    (h3 : ∀ fp, r.filePath = some fp → fs (basename fp) = false) :
    claimSong c sid = (c, false) ∧
    (∀ e w, (getSongUrlRoute c sid fs e w).catalog = c ∧
      (getSongUrlRoute c sid fs e w).dispatched = [] ∧
      (∀ fn t, (getSongUrlRoute c sid fs e w).resp ≠ RouteResp.cached fn t) ∧
      1 ≤ (getSongUrlRoute c sid fs e w).netCalls) ∧
    (∀ e w n, routeIter c sid fs e w n = c) := by
  have hskip : claimSong c sid = (c, false) := by
    simp [claimSong, h1, h2]
  have hclaims : startBackgroundDownloadClaims c [sid] = (c, []) := by
    simp [startBackgroundDownloadClaims, hskip]
  have hlocal : (match r.filePath with
      | some fp => if fp ≠ "" ∧ fs (basename fp) = true then some fp else none
      | none => none) = (none : Option String) := by
    cases hf : r.filePath with
    | none => rfl
    | some fp => simp [h3 fp hf]
  have hstep : ∀ e w, (getSongUrlRoute c sid fs e w).catalog = c ∧
      (getSongUrlRoute c sid fs e w).dispatched = [] ∧
      (∀ fn t, (getSongUrlRoute c sid fs e w).resp ≠ RouteResp.cached fn t) ∧
      1 ≤ (getSongUrlRoute c sid fs e w).netCalls := by
    intro e w
    unfold getSongUrlRoute
    rw [h1]
    simp only [h2, if_pos rfl, hlocal]
    cases e with
    | nil =>
      by_cases hw : w.isEmpty
      · simp [hw]
      · simp [hw, hclaims]
    | cons u rest =>
      by_cases hu : urlTruthy u.url = true
      · simp only [hu, if_pos rfl]
        by_cases hne : (u :: rest).isEmpty
        · simp at hne
        · simp [hne, hclaims]
      · simp only [Bool.not_eq_true] at hu
        simp only [hu]
        by_cases hw : w.isEmpty
        · simp [hw]
        · simp [hw, hclaims]
  refine ⟨hskip, hstep, ?_⟩
  intro e w n
  induction n with
  | zero => rfl
  | succ n ih =>
    unfold routeIter
    rw [ih]
    exact (hstep e w).1

/-- The stale Completed record of the C10 witness: the catalog says
downloaded, the filesystem has no such file. -/
def recC10 : MusicRec :=
  { source := some 1, title := some "t", artist := some "a",
    filePath := some "gone.mp3", fileSize := 5, downloaded := true, status := 2 }

/-- Witness for C10 on a concrete catalog and an empty filesystem. -/
theorem missing_file_skip_and_network_app :
    ((fun j => if j = 4 then some recC10 else none : Catalog) 4 = some recC10 ∧
      recC10.downloaded = true ∧
      (∀ fp, recC10.filePath = some fp → (fun _ => false : String → Bool) (basename fp) = false)) ∧
    claimSong (fun j => if j = 4 then some recC10 else none) 4 =
      ((fun j => if j = 4 then some recC10 else none), false) :=
  ⟨⟨rfl, rfl, fun _ _ => rfl⟩,
   (missing_file_skip_and_network (fun j => if j = 4 then some recC10 else none) 4
      (fun _ => false) recC10 rfl rfl (fun _ _ => rfl)).1⟩

/-! ## Claim C6 -/

/-- A usable head answer has a truthy URL and is the head of the list. -/
theorem headUsable_some (l : List SongUrlM) (u : SongUrlM) (h : headUsable l = some u) :
    urlTruthy u.url = true := by
  cases l with
  | nil => exact Option.noConfusion h
  | cons v rest =>
    simp only [headUsable] at h
    by_cases hv : urlTruthy v.url = true
    · rw [if_pos hv] at h
      cases h
      exact hv
    · rw [if_neg hv] at h
      exact Option.noConfusion h

/-- The EAPI fallback loop finds exactly the first quality, in list order and
distinct from the requested one, whose answer is usable, and returns that
quality alongside the URL; with no hit it reports the requested quality and
no URL. -/
theorem eapiFallbackGo_eq (o : UrlOracle) (q0 : String) (qs : List String) :
    eapiFallbackGo o q0 qs =
      match (qs.filter (fun q => q != q0)).findSome?
          (fun q => (headUsable (o.eapi q)).map (fun u => (q, u))) with
      | some p => (some p.2, p.1)
      | none => (none, q0) := by
  induction qs with
  | nil => rfl
  | cons q rest ih =>
    by_cases hq : q = q0
    · subst hq
      have h1 : eapiFallbackGo o q (q :: rest) = eapiFallbackGo o q rest := by
        simp [eapiFallbackGo]
      have h2 : List.filter (fun x => x != q) (q :: rest) =
          List.filter (fun x => x != q) rest := by
        simp [List.filter_cons]
      rw [h1, h2, ih]
    · have hbne : (q != q0) = true := bne_iff_ne.mpr hq
      have h2 : List.filter (fun x => x != q0) (q :: rest) =
          q :: List.filter (fun x => x != q0) rest := by
        simp [List.filter_cons, hbne]
      rw [h2, List.findSome?_cons]
      cases hu : headUsable (o.eapi q) with
      | some u =>
        have h1 : eapiFallbackGo o q0 (q :: rest) = (some u, q) := by
          simp [eapiFallbackGo, hq, hu]
        rw [h1]
        simp [hu]
      | none =>
        have h1 : eapiFallbackGo o q0 (q :: rest) = eapiFallbackGo o q0 rest := by
          simp [eapiFallbackGo, hq, hu]
        rw [h1, ih]
        simp [hu]

/-- C6: when the requested quality level yields no usable URL via the EAPI,
`download_song` iterates the fixed fallback priority list — exactly
`jymaster, sky, jyeffect, hires, lossless, exhigh, higher, standard` —
skipping the level already tried, short-circuits on the first answer whose
`url` field is non-empty, and both the resolved URL and the quality the
function subsequently uses (for example to choose the file extension) are
the tier actually resolved, not the requested one. -/
theorem quality_fallback_resolution (o : UrlOracle) (q0 : String)
    (hreq : headUsable (o.eapi q0) = none) (q : String) (u : SongUrlM)
    (hhit : firstFallbackHit o q0 = some (q, u)) :
    fallback_qualities =
      ["jymaster", "sky", "jyeffect", "hires", "lossless", "exhigh", "higher", "standard"] ∧
    downloadSongResolve o true q0 = (some u, q) ∧
    urlTruthy u.url = true ∧
    downloadSongExtension o true q0 =
      some (if u.type ≠ "" then u.type else extFor q) := by
  have husable : urlTruthy u.url = true := by
    unfold firstFallbackHit at hhit
    rw [List.findSome?_eq_some_iff] at hhit
    obtain ⟨l1, a, l2, _, ha, _⟩ := hhit
    obtain ⟨u', hu', heq⟩ := Option.map_eq_some'.mp ha
    cases heq
    exact headUsable_some _ _ hu'
  have hefall : eapiFallbackGo o q0 fallback_qualities = (some u, q) := by
    rw [eapiFallbackGo_eq]
    unfold firstFallbackHit at hhit
    rw [hhit]
  have hres : downloadSongResolve o true q0 = (some u, q) := by
    unfold downloadSongResolve eapiPhase
    rw [hreq, hefall]
    simp [usable, husable]
  refine ⟨rfl, hres, husable, ?_⟩
  unfold downloadSongExtension
  rw [hres]
  simp [husable]

/-- The resolved answer of the C6 witness. -/
def urlC6 : SongUrlM :=
  { id := 210049, url := some "http://cdn/a.mp3", size := 1, type := "mp3", level := "exhigh" }

/-- The upstream of the C6 witness: only the `exhigh` tier resolves. -/
def oracleC6 : UrlOracle :=
  { eapi := fun q => if q = "exhigh" then [urlC6] else [],
    dl := fun _ _ => none,
    stream := fun _ _ => [] }

/-- Witness for C6: `lossless` is requested, only `exhigh` is available,
resolution returns the `exhigh` answer and reports `exhigh`. -/
theorem quality_fallback_resolution_app :
    (headUsable (oracleC6.eapi "lossless") = none ∧
      firstFallbackHit oracleC6 "lossless" = some ("exhigh", urlC6)) ∧
    downloadSongResolve oracleC6 true "lossless" = (some urlC6, "exhigh") :=
  ⟨⟨by decide, by decide⟩,
   (quality_fallback_resolution oracleC6 "lossless" (by decide) "exhigh" urlC6
      (by decide)).2.1⟩
